import Mathlib

/-!
Shallow embedding of the audio-segmentation state machines of the
`kennychae/FastApiTest` repository.

Three near-identical segmenter variants exist in the source:
* `src/atot/realtimeStream.py` — `_AudioActivityDetection` with both a
  silence threshold and an exit threshold, returning a status dict
  (modelled by `RTState`, `RTState.call`, `RTState.resetStream`);
* `src/audioStream.py` — `AudioActivityDetection` without an exit
  threshold (modelled by `ASState`, `ASState.call`), together with
  `AudioStream.process_audio_batch` (modelled by `AS_process_audio_batch`);
* `src/atot/audioStream.py` — `_AudioActivityDetection` without an exit
  threshold whose finalize branch increments a never-initialized
  `speech_id` attribute (modelled by `ATState`, `ATState.call`), together
  with `_AudioStream.process_audio_batch` (modelled by
  `AT_process_audio_batch`).

Audio buffers (1-D numpy arrays) are modelled as `List Int`;
`np.zeros_like` becomes `zeros_like`, `np.concatenate(_, axis=0)` becomes
`List.flatten`.  Speech-timestamp lists are modelled as
`List (Nat × Nat)`; only their emptiness is inspected by the segmenters.
Raised Python exceptions are modelled with `Except Unit`.
-/

/-- Model of `np.zeros_like w` for a 1-D buffer: a zero-filled buffer of
the same length (same shape). -/
def zeros_like (w : List Int) : List Int := List.replicate w.length 0

/-- The five status strings returned by `_AudioActivityDetection` in
`realtimeStream.py`. -/
inductive Status where
  | Silent
  | Speech
  | Finished
  | Error
  | Reset
deriving DecidableEq, Repr

/-- Model of the dict `{"audio": ..., "status": ...}` returned by
`_AudioActivityDetection.__call__` and `resetStream` in
`realtimeStream.py`. -/
structure RTResult where
  audio : Option (List Int)
  status : Status
deriving DecidableEq, Repr

/-- The mutable attributes of `_AudioActivityDetection` in
`src/atot/realtimeStream.py` (lines 91-98). -/
structure RTState where
  is_recording : Bool
  speech_buffer : List (List Int)
  stop_count : Nat
  silence_threshold : Nat
  exit_threshold : Nat
deriving DecidableEq, Repr

/-- Model of `_AudioActivityDetection.__init__` of `realtimeStream.py`:
the defaults `silence_threshold = 3` and `exit_threshold = 10` come from
`AudioConfig`. -/
def RT_init (silence_threshold exit_threshold : Nat) : RTState :=
  { is_recording := false
    speech_buffer := []
    stop_count := 0
    silence_threshold := silence_threshold
    exit_threshold := exit_threshold }

/-- Model of `_AudioActivityDetection.resetStream` of `realtimeStream.py`
(lines 100-105). -/
def RTState.resetStream (s : RTState) : RTResult × RTState :=
  ({ audio := none, status := Status.Reset },
   { s with is_recording := false, speech_buffer := [], stop_count := 0 })

/-- Model of `_AudioActivityDetection.__call__` of
`src/atot/realtimeStream.py` (lines 107-166), translated statement by
statement.  Returns the result dict together with the post-state.  Note
that `user_status` is initialized to `Silent` and set to `Speech` only
inside the start-recording branch, so a speech window while already
recording reports `Silent`. -/
def RTState.call (s : RTState) (speech_detected : List (Nat × Nat))
    (audio_buffer : List Int) : RTResult × RTState :=
  if 0 < speech_detected.length then
    let user_status := if s.is_recording then Status.Silent else Status.Speech
    let s1 := if s.is_recording then s
              else { s with is_recording := true, stop_count := 0,
                            speech_buffer := [] }
    let s2 := { s1 with speech_buffer := s1.speech_buffer ++ [audio_buffer] }
    let s3 := if 0 < s2.stop_count then { s2 with stop_count := 0 } else s2
    ({ audio := none, status := user_status }, s3)
  else
    if s.is_recording then
      let s1 := { s with
                  speech_buffer := s.speech_buffer ++ [zeros_like audio_buffer],
                  stop_count := s.stop_count + 1 }
      if s.silence_threshold ≤ s1.stop_count then
        ({ audio := some s1.speech_buffer.flatten, status := Status.Finished },
         { s1 with is_recording := false, stop_count := 0, speech_buffer := [] })
      else
        ({ audio := none, status := Status.Speech }, s1)
    else
      let s1 := { s with stop_count := s.stop_count + 1 }
      if s.exit_threshold ≤ s1.stop_count then
        ({ audio := none, status := Status.Error }, s1)
      else
        ({ audio := none, status := Status.Silent }, s1)

/-- Feed a list of `(speech_detected, audio_buffer)` inputs through the
`realtimeStream.py` segmenter, collecting the per-window results and the
final state. -/
def runRT (s : RTState) : List (List (Nat × Nat) × List Int) →
    List RTResult × RTState
  | [] => ([], s)
  | (sd, w) :: rest =>
    let (r, s1) := s.call sd w
    let (rs, s2) := runRT s1 rest
    (r :: rs, s2)

/-- Total number of samples held in a buffer list. -/
def bufLen (l : List (List Int)) : Nat := (l.map List.length).sum

/-- Feed inputs through the `realtimeStream.py` segmenter until the first
window whose result carries finalized audio; return that audio (if any)
and the number of windows consumed. -/
def runUntilFinishedRT (s : RTState) :
    List (List (Nat × Nat) × List Int) → Option (List Int) × Nat
  | [] => (none, 0)
  | (sd, w) :: rest =>
    let (r, s1) := s.call sd w
    match r.audio with
    | some a => (some a, 1)
    | none =>
      let (o, k) := runUntilFinishedRT s1 rest
      (o, k + 1)

/-- Model of the chunk-collection loop shared by both
`process_audio_batch` implementations.  The queue is modelled as the list
of chunks that arrive before a pop times out; popping from the exhausted
queue is the `queue.Empty` timeout.  Returns the chunks gathered in order
and whether a timeout occurred before `target` chunks were gathered. -/
def collectLoop : Nat → List (List Int) → List (List Int) × Bool
  | 0, _ => ([], false)
  | _ + 1, [] => ([], true)
  | n + 1, c :: rest =>
    let (cs, t) := collectLoop n rest
    (c :: cs, t)

/-- Model of `_AudioStream.process_audio_batch` of
`src/atot/audioStream.py` (lines 126-146): the `queue.Empty` timeout is
caught (`except queue.Empty: pass`), so the chunks gathered so far are
concatenated, or `None` is returned when no chunk was gathered. -/
def AT_process_audio_batch (target : Nat) (q : List (List Int)) :
    Option (List Int) :=
  let chunks := (collectLoop target q).1
  if chunks = [] then none else some chunks.flatten

/-- Model of `AudioStream.process_audio_batch` of `src/audioStream.py`
(lines 65-76): the collection loop has no try/except, so a `queue.Empty`
timeout propagates (modelled by `Except.error ()`); only a full batch is
ever concatenated, and the `None` branch is reachable only for
`target = 0`. -/
def AS_process_audio_batch (target : Nat) (q : List (List Int)) :
    Except Unit (Option (List Int)) :=
  let p := collectLoop target q
  if p.2 then Except.error ()
  else if p.1 = [] then Except.ok none else Except.ok (some p.1.flatten)

/-- The mutable attributes of `_AudioActivityDetection` in
`src/atot/audioStream.py` (lines 178-182).  `speech_id` is `Option Nat`:
`none` models the attribute being absent (it is never assigned in
`__init__`, yet the finalize branch executes `self.speech_id += 1`). -/
structure ATState where
  is_recording : Bool
  speech_buffer : List (List Int)
  stop_count : Nat
  silence_threshold : Nat
  speech_id : Option Nat
deriving DecidableEq, Repr

/-- Model of `_AudioActivityDetection.__init__` of
`src/atot/audioStream.py`: `speech_id` is not initialized. -/
def AT_init (silence_threshold : Nat) : ATState :=
  { is_recording := false
    speech_buffer := []
    stop_count := 0
    silence_threshold := silence_threshold
    speech_id := none }

/-- Model of `_AudioActivityDetection.__call__` of
`src/atot/audioStream.py` (lines 184-229).  Reading the missing
`speech_id` attribute in the finalize branch raises `AttributeError`,
modelled by `Except.error ()`. -/
def ATState.call (s : ATState) (speech_detected : List (Nat × Nat))
    (audio_buffer : List Int) :
    Except Unit (Option (List Int) × ATState) :=
  if 0 < speech_detected.length then
    let s1 := if s.is_recording then s
              else { s with is_recording := true, speech_buffer := [] }
    let s2 := { s1 with speech_buffer := s1.speech_buffer ++ [audio_buffer] }
    let s3 := if 0 < s2.stop_count then { s2 with stop_count := 0 } else s2
    Except.ok (none, s3)
  else
    if s.is_recording then
      let s1 := { s with
                  speech_buffer := s.speech_buffer ++ [zeros_like audio_buffer],
                  stop_count := s.stop_count + 1 }
      if s1.silence_threshold ≤ s1.stop_count then
        let speech_data := s1.speech_buffer.flatten
        let s2 := { s1 with is_recording := false, stop_count := 0,
                            speech_buffer := [] }
        match s2.speech_id with
        | none => Except.error ()
        | some n =>
          Except.ok (some speech_data, { s2 with speech_id := some (n + 1) })
      else Except.ok (none, s1)
    else Except.ok (none, s)

/-- Drive the `src/atot/audioStream.py` segmenter as
`_listen_and_transcribe` does: feed windows until the first non-`None`
return (the finalized audio) or an uncaught exception. -/
def runFirstAudioAT (s : ATState) :
    List (List (Nat × Nat) × List Int) → Except Unit (Option (List Int))
  | [] => Except.ok none
  | (sd, w) :: rest =>
    match s.call sd w with
    | Except.error e => Except.error e
    | Except.ok (some a, _) => Except.ok (some a)
    | Except.ok (none, s1) => runFirstAudioAT s1 rest

/-- The mutable attributes of `AudioActivityDetection` in
`src/audioStream.py` (lines 88-94), plus `current_status`, which is first
assigned inside `__call__` (hence `Option Bool`, `none` before the first
call). -/
structure ASState where
  is_recording : Bool
  speech_buffer : List (List Int)
  speech_id : Nat
  prev_status : String
  stop_count : Nat
  silence_threshold : Nat
  current_status : Option Bool
deriving DecidableEq, Repr

/-- Model of `AudioActivityDetection.__init__` of `src/audioStream.py`. -/
def AS_init (silence_threshold : Nat) : ASState :=
  { is_recording := false
    speech_buffer := []
    speech_id := 0
    prev_status := "nonspeech"
    stop_count := 0
    silence_threshold := silence_threshold
    current_status := none }

/-- Model of `AudioActivityDetection.__call__` of `src/audioStream.py`
(lines 96-134). -/
def ASState.call (s : ASState) (time_checker : List (Nat × Nat))
    (buffers : List Int) : Option (List Int) × ASState :=
  let cs : Bool := decide (0 < time_checker.length)
  let s0 := { s with current_status := some cs }
  if cs then
    let s1 := if s0.is_recording then s0
              else { s0 with is_recording := true, speech_buffer := [] }
    let s2 := { s1 with speech_buffer := s1.speech_buffer ++ [buffers] }
    let s3 := if 0 < s2.stop_count then { s2 with stop_count := 0 } else s2
    (none, { s3 with prev_status := "speech" })
  else
    if s0.is_recording then
      let s1 := { s0 with
                  speech_buffer := s0.speech_buffer ++ [zeros_like buffers],
                  stop_count := s0.stop_count + 1,
                  prev_status := "nonspeech" }
      if s1.silence_threshold ≤ s1.stop_count then
        (some s1.speech_buffer.flatten,
         { s1 with is_recording := false, stop_count := 0,
                   speech_buffer := [] })
      else (none, s1)
    else (none, s0)

/-- Drive the `src/audioStream.py` segmenter as `listen_and_transcribe`
does: feed windows until the first non-`None` return. -/
def runFirstAudioAS (s : ASState) :
    List (List (Nat × Nat) × List Int) → Option (List Int)
  | [] => none
  | (sd, w) :: rest =>
    match s.call sd w with
    | (some a, _) => some a
    | (none, s1) => runFirstAudioAS s1 rest

/-- A silent window while recording and strictly below the threshold
appends a zero window, increments the counter, and reports `Speech`. -/
lemma call_silent_rec_cont (s : RTState) (w : List Int)
    (hrec : s.is_recording = true)
    (h : s.stop_count + 1 < s.silence_threshold) :
    s.call [] w
      = ({ audio := none, status := Status.Speech },
         { s with speech_buffer := s.speech_buffer ++ [zeros_like w],
                  stop_count := s.stop_count + 1 }) := by
  simp [RTState.call, hrec]
  omega

/-- A silent window while recording at the threshold finalizes: the
concatenated buffer (with a final zero window) is returned and the state
is cleared back to idle. -/
lemma call_silent_rec_fin (s : RTState) (w : List Int)
    (hrec : s.is_recording = true)
    (h : s.silence_threshold ≤ s.stop_count + 1) :
    s.call [] w
      = ({ audio := some (s.speech_buffer ++ [zeros_like w]).flatten,
           status := Status.Finished },
         { s with is_recording := false, stop_count := 0,
                  speech_buffer := [] }) := by
  simp [RTState.call, hrec, h]

/-- A run of `j` silent windows while recording, staying under the
threshold, emits `Speech` for each window, appends `j` zero windows, and
advances the counter by `j`. -/
lemma runRT_silent (w : List Int) :
    ∀ (j : Nat) (s : RTState), s.is_recording = true →
      s.stop_count + j < s.silence_threshold →
      runRT s (List.replicate j ([], w))
        = (List.replicate j { audio := none, status := Status.Speech },
           { s with
             speech_buffer := s.speech_buffer ++ List.replicate j (zeros_like w),
             stop_count := s.stop_count + j }) := by
  intro j
  induction j with
  | zero => intro s hrec h; simp [runRT]
  | succ j ih =>
    intro s hrec h
    rw [List.replicate_succ]
    have hstep := call_silent_rec_cont s w hrec (by omega)
    simp only [runRT, hstep]
    rw [ih _ (by simp [hrec]) (by simp; omega)]
    simp [List.replicate_succ, List.append_assoc]
    omega

/-- One step preserves the silence threshold and the invariant that a
recording state keeps its counter strictly below the threshold. -/
lemma RT_inv_step (s : RTState) (sd : List (Nat × Nat)) (w : List Int)
    (hth : 1 ≤ s.silence_threshold) :
    ((s.call sd w).2.silence_threshold = s.silence_threshold)
    ∧ ((s.call sd w).2.is_recording = true →
        (s.call sd w).2.stop_count < (s.call sd w).2.silence_threshold) := by
  by_cases hsd : 0 < sd.length
  · by_cases hr : s.is_recording <;>
    rcases Nat.eq_zero_or_pos s.stop_count with h0 | h0 <;>
      simp [RTState.call, hsd, hr, h0] <;> omega
  · by_cases hr : s.is_recording
    · by_cases hf : s.silence_threshold ≤ s.stop_count + 1 <;>
        simp [RTState.call, hsd, hr, hf] <;> omega
    · by_cases he : s.exit_threshold ≤ s.stop_count + 1 <;>
        simp [RTState.call, hsd, hr, he]

/-- Along any run, the silence threshold is preserved and a recording
state keeps its counter strictly below the threshold. -/
lemma RT_inv_run (ws : List (List (Nat × Nat) × List Int)) :
    ∀ (s : RTState), 1 ≤ s.silence_threshold →
      (s.is_recording = true → s.stop_count < s.silence_threshold) →
      ((runRT s ws).2.silence_threshold = s.silence_threshold)
      ∧ ((runRT s ws).2.is_recording = true →
          (runRT s ws).2.stop_count < (runRT s ws).2.silence_threshold) := by
  induction ws with
  | nil => intro s h1 h2; exact ⟨by simp [runRT], by simpa [runRT] using h2⟩
  | cons p rest ih =>
    intro s h1 h2
    obtain ⟨sd, w⟩ := p
    have hstep := RT_inv_step s sd w h1
    have hrec := ih (s.call sd w).2 (hstep.1 ▸ h1) hstep.2
    simp only [runRT]
    exact ⟨by rw [hrec.1, hstep.1], hrec.2⟩

/-- While recording, each step adds exactly the incoming window's sample
count to the buffer, and a finalizing step returns audio holding the
buffer's samples plus the final window's. -/
lemma call_bufLen (s : RTState) (sd : List (Nat × Nat)) (w : List Int)
    (hrec : s.is_recording = true) :
    ((s.call sd w).1.audio = none →
       (s.call sd w).2.is_recording = true
       ∧ bufLen (s.call sd w).2.speech_buffer
           = bufLen s.speech_buffer + w.length)
    ∧ (∀ a, (s.call sd w).1.audio = some a →
       a.length = bufLen s.speech_buffer + w.length) := by
  by_cases hsd : 0 < sd.length
  · rcases Nat.eq_zero_or_pos s.stop_count with h0 | h0 <;>
      simp [RTState.call, hrec, hsd, h0, bufLen]
  · by_cases hth : s.silence_threshold ≤ s.stop_count + 1 <;>
      simp [RTState.call, hrec, hsd, hth, bufLen, zeros_like]

/-- Sample-count accounting for a recording span: if a run started while
recording finalizes, the returned audio holds the initial buffer's
samples plus one window's worth of samples per consumed window. -/
lemma runUF_bufLen (ws : List (List (Nat × Nat) × List Int)) :
    ∀ (s : RTState), s.is_recording = true →
      ∀ a, (runUntilFinishedRT s ws).1 = some a →
        a.length = bufLen s.speech_buffer
          + ((ws.take (runUntilFinishedRT s ws).2).map
              (fun p => p.2.length)).sum := by
  induction ws with
  | nil => intro s _ a h; simp [runUntilFinishedRT] at h
  | cons p rest ih =>
    intro s hrec a h
    obtain ⟨sd, w⟩ := p
    have hstep := call_bufLen s sd w hrec
    rcases haud : (s.call sd w).1.audio with _ | b
    · have hcont := hstep.1 haud
      simp only [runUntilFinishedRT, haud] at h ⊢
      have := ih (s.call sd w).2 hcont.1 a h
      rw [this, hcont.2]
      simp [List.take_succ_cons]
      omega
    · have hfin := hstep.2 b haud
      simp only [runUntilFinishedRT, haud] at h ⊢
      cases h
      simp [List.take_succ_cons, hfin]

/-- The collection loop gathers exactly the first `target` available
chunks in order, and times out exactly when fewer than `target` chunks
are available. -/
lemma collectLoop_spec : ∀ (target : Nat) (q : List (List Int)),
    (collectLoop target q).1 = q.take target
    ∧ ((collectLoop target q).2 = true ↔ q.length < target) := by
  intro target
  induction target with
  | zero => intro q; simp [collectLoop]
  | succ n ih =>
    intro q
    cases q with
    | nil => simp [collectLoop]
    | cons c rest =>
      have := ih rest
      simp [collectLoop, this.1, this.2]

/-- A successful step of the `src/atot/audioStream.py` segmenter from a
state whose `speech_id` attribute is missing never returns audio and
never creates the attribute. -/
lemma AT_call_ok_none (s : ATState) (sd : List (Nat × Nat)) (w : List Int)
    (hid : s.speech_id = none) :
    ∀ r s1, s.call sd w = Except.ok (r, s1) →
      s1.speech_id = none ∧ r = none := by
  intro r s1 h
  by_cases hsd : 0 < sd.length
  · by_cases hr : s.is_recording <;>
    rcases Nat.eq_zero_or_pos s.stop_count with h0 | h0 <;>
      simp [ATState.call, hsd, hr, h0] at h <;>
      simp [← h.1, ← h.2, hid]
  · by_cases hr : s.is_recording
    · by_cases hth : s.silence_threshold ≤ s.stop_count + 1
      · simp [ATState.call, hsd, hr, hth, hid] at h
      · simp [ATState.call, hsd, hr, hth] at h
        simp [← h.1, ← h.2, hid]
    · simp [ATState.call, hsd, hr] at h
      simp [← h.1, ← h.2, hid]

/-- From any state with a missing `speech_id` attribute, no run of the
`src/atot/audioStream.py` segmenter ever returns finalized audio. -/
lemma runFirstAudioAT_none (ws : List (List (Nat × Nat) × List Int)) :
    ∀ (s : ATState), s.speech_id = none →
      ∀ a, runFirstAudioAT s ws ≠ Except.ok (some a) := by
  induction ws with
  | nil =>
    intro s _ a h
    simp [runFirstAudioAT] at h
  | cons p rest ih =>
    intro s hid a h
    obtain ⟨sd, w⟩ := p
    rcases hc : s.call sd w with e | ⟨r, s1⟩
    · simp [runFirstAudioAT, hc] at h
    · have hp := AT_call_ok_none s sd w hid r s1 hc
      rw [hp.2] at hc
      simp only [runFirstAudioAT, hc] at h
      exact ih s1 hp.1 a h

/-- A silent window while idle leaves the `src/audioStream.py` segmenter
unchanged except for the write-only `current_status` scratch attribute. -/
lemma AS_call_idle_silent (s : ASState) (w : List Int)
    (hs : s.is_recording = false) :
    s.call [] w = (none, { s with current_status := some false }) := by
  simp [ASState.call, hs]

/-- A silent window while idle is a complete no-op for the
`src/atot/audioStream.py` segmenter. -/
lemma AT_call_idle_silent (t : ATState) (v : List Int)
    (ht : t.is_recording = false) :
    t.call [] v = Except.ok (none, t) := by
  simp [ATState.call, ht]

/-- Any number of silent windows fed to the idle `src/audioStream.py`
segmenter never produces finalized audio. -/
lemma runFirstAudioAS_idle_silent (w : List Int) :
    ∀ (n : Nat) (s : ASState), s.is_recording = false →
      runFirstAudioAS s (List.replicate n ([], w)) = none := by
  intro n
  induction n with
  | zero => intro s _; simp [runFirstAudioAS]
  | succ n ih =>
    intro s hs
    rw [List.replicate_succ]
    simp only [runFirstAudioAS, AS_call_idle_silent s w hs]
    exact ih _ hs

/-- C1: for any silence threshold `N ≥ 1`, once recording, a silent
window appends a zero window and increments the counter, and `Finished`
with the concatenated buffer is returned exactly on the `N`-th
consecutive silent window after the last speech window — never earlier
(the counter stays below `N` in every reachable recording state, so
never later either).  With `N = 3`, the input sequence speech, silent,
silent, silent from the initial state yields the event sequence
`Speech, Speech, Speech, Finished`, the last event carrying the four
concatenated windows. -/
theorem C1_silence_threshold (N : Nat) (hN : 1 ≤ N) (s : RTState)
    (w : List Int) (hrec : s.is_recording = true)
    (hth : s.silence_threshold = N) (hcnt : s.stop_count < N) :
    ((s.call [] w).1.status = Status.Finished ↔ s.stop_count + 1 = N)
    ∧ (s.stop_count + 1 < N →
        (s.call [] w)
          = ({ audio := none, status := Status.Speech },
             { s with speech_buffer := s.speech_buffer ++ [zeros_like w],
                      stop_count := s.stop_count + 1 }))
    ∧ (s.stop_count + 1 = N →
        (s.call [] w)
          = ({ audio := some (s.speech_buffer ++ [zeros_like w]).flatten,
               status := Status.Finished },
             { s with is_recording := false, stop_count := 0,
                      speech_buffer := [] }))
    ∧ ((runRT (RT_init 3 10)
          [([(0,1)], w), ([], w), ([], w), ([], w)]).1.map RTResult.status
        = [Status.Speech, Status.Speech, Status.Speech, Status.Finished])
    ∧ ((runRT (RT_init 3 10)
          [([(0,1)], w), ([], w), ([], w), ([], w)]).1.map RTResult.audio
        = [none, none, none,
           some ([w, zeros_like w, zeros_like w, zeros_like w].flatten)])
    ∧ (∀ ws : List (List (Nat × Nat) × List Int),
        (runRT (RT_init N 10) ws).2.is_recording = true →
          (runRT (RT_init N 10) ws).2.stop_count < N) := by
  refine ⟨?_, ?_, ?_, ?_, ?_, ?_⟩
  · constructor
    · intro hfin
      by_contra hne
      rw [call_silent_rec_cont s w hrec (by omega)] at hfin
      simp at hfin
    · intro he
      rw [call_silent_rec_fin s w hrec (by omega)]
  · intro hlt
    exact call_silent_rec_cont s w hrec (by omega)
  · intro he
    exact call_silent_rec_fin s w hrec (by omega)
  · simp [runRT, RTState.call, RT_init]
  · simp [runRT, RTState.call, RT_init]
  · intro ws
    have h := RT_inv_run ws (RT_init N 10) (by simpa [RT_init] using hN)
      (by simp [RT_init])
    intro hr
    have hlt := h.2 hr
    rwa [h.1] at hlt

/-- C1 witness: with threshold 3 and counter 0, the first silent window
does not finalize. -/
theorem C1_silence_threshold_witness :
    ((⟨true, [[5]], 0, 3, 10⟩ : RTState).call [] [7]).1.status
      ≠ Status.Finished := by
  have h := C1_silence_threshold 3 (by decide) ⟨true, [[5]], 0, 3, 10⟩ [7]
    rfl rfl (by decide)
  intro hc
  exact absurd (h.1.mp hc) (by decide)

/-- C2: while idle, each silent window increments the counter and leaves
everything else unchanged; `Error` is returned exactly when the
incremented counter reaches the exit threshold, `Silent` strictly
before.  With exit threshold 10, nine silent windows from the initial
state all yield `Silent`, and the tenth yields `Error`. -/
theorem C2_exit_threshold (s : RTState) (w : List Int)
    (hrec : s.is_recording = false) :
    ((s.call [] w).2 = { s with stop_count := s.stop_count + 1 })
    ∧ ((s.call [] w).1.status = Status.Error
        ↔ s.exit_threshold ≤ s.stop_count + 1)
    ∧ ((s.call [] w).1.status = Status.Silent
        ↔ s.stop_count + 1 < s.exit_threshold)
    ∧ ((runRT (RT_init 3 10)
          [([], w), ([], w), ([], w), ([], w), ([], w), ([], w), ([], w),
           ([], w), ([], w)]).1.map RTResult.status
        = List.replicate 9 Status.Silent)
    ∧ ((runRT (RT_init 3 10)
          [([], w), ([], w), ([], w), ([], w), ([], w), ([], w), ([], w),
           ([], w), ([], w), ([], w)]).1.map RTResult.status
        = List.replicate 9 Status.Silent ++ [Status.Error]) := by
  refine ⟨?_, ?_, ?_, ?_, ?_⟩
  · by_cases h : s.exit_threshold ≤ s.stop_count + 1 <;>
      simp [RTState.call, hrec, h]
  · by_cases h : s.exit_threshold ≤ s.stop_count + 1 <;>
      simp [RTState.call, hrec, h]
  · by_cases h : s.exit_threshold ≤ s.stop_count + 1 <;>
      simp [RTState.call, hrec, h] <;> omega
  · simp [runRT, RTState.call, RT_init, List.replicate]
  · simp [runRT, RTState.call, RT_init, List.replicate]

/-- C2 witness: the tenth consecutive silent window (counter 9, exit
threshold 10) yields `Error`. -/
theorem C2_exit_threshold_witness :
    ((⟨false, [], 9, 3, 10⟩ : RTState).call [] [0]).1.status = Status.Error :=
  (C2_exit_threshold ⟨false, [], 9, 3, 10⟩ [0] rfl).2.1.mpr (by decide)

/-- C3 counterexample: the claim that `Error` is terminal is false on the
code.  After ten silent windows from the initial state (the tenth
returning `Error`), a speech window is still processed: recording starts
and `Speech` is emitted, without any reset. -/
theorem C3_error_terminal_cex :
    (((runRT (RT_init 3 10) (List.replicate 10 ([], ([0] : List Int)))).1.map
        RTResult.status).getLast? = some Status.Error)
    ∧ ((runRT (RT_init 3 10)
          (List.replicate 10 ([], ([0] : List Int)))).2.call
          [(0,1)] [0]).1.status = Status.Speech
    ∧ ((runRT (RT_init 3 10)
          (List.replicate 10 ([], ([0] : List Int)))).2.call
          [(0,1)] [0]).2.is_recording = true := by
  decide

/-- C3 amended: the segmenter has no terminal `Error` state.  After an
`Error` event (idle with counter at or above the exit threshold), a
further silent window increments the counter and yields `Error` again,
while a speech window starts recording normally and yields `Speech`;
only an explicit reset clears the counter. -/
theorem C3_error_not_terminal (s : RTState) (w : List Int)
    (sd : List (Nat × Nat)) (hrec : s.is_recording = false)
    (herr : s.exit_threshold ≤ s.stop_count) (hsd : sd ≠ []) :
    ((s.call [] w).1.status = Status.Error
      ∧ (s.call [] w).2.stop_count = s.stop_count + 1)
    ∧ ((s.call sd w).1.status = Status.Speech
      ∧ (s.call sd w).2.is_recording = true
      ∧ (s.call sd w).2.speech_buffer = [w]
      ∧ (s.call sd w).2.stop_count = 0)
    ∧ (s.resetStream).2.stop_count = 0 := by
  have hl : 0 < sd.length := List.length_pos.mpr hsd
  have hth : s.exit_threshold ≤ s.stop_count + 1 := by omega
  refine ⟨?_, ?_, ?_⟩
  · simp [RTState.call, hrec, hth]
  · simp [RTState.call, hrec, hl]
  · simp [RTState.resetStream]

/-- C3 amended witness: after the counter reached the exit threshold, a
further silent window still yields `Error`. -/
theorem C3_error_not_terminal_witness :
    ((⟨false, [], 10, 3, 10⟩ : RTState).call [] [0]).1.status = Status.Error :=
  (C3_error_not_terminal ⟨false, [], 10, 3, 10⟩ [0] [(0,1)] rfl (by decide)
    (by decide)).1.1

/-- C4: a speech window while already recording appends the window,
resets the silence counter to 0 and stays recording — but the emitted
status is `Silent`, not `Speech` as the claim (and the code's own
docstring and inline comments) state, because `user_status` is set to
`Speech` only in the start-recording branch of `__call__`. -/
theorem C4_speech_while_recording (s : RTState) (sd : List (Nat × Nat))
    (w : List Int) (hrec : s.is_recording = true) (hsd : sd ≠ []) :
    ((s.call sd w).1.status = Status.Silent
      ∧ (s.call sd w).1.audio = none
      ∧ (s.call sd w).2.is_recording = true
      ∧ (s.call sd w).2.speech_buffer = s.speech_buffer ++ [w]
      ∧ (s.call sd w).2.stop_count = 0)
    ∧ ((RTState.call ⟨true, [[1]], 0, 3, 10⟩ [(0,1)] [2]).1
        = { audio := none, status := Status.Silent }
      ∧ (RTState.call ⟨true, [[1]], 0, 3, 10⟩ [(0,1)] [2]).2
        = ⟨true, [[1],[2]], 0, 3, 10⟩) := by
  have hl : 0 < sd.length := List.length_pos.mpr hsd
  refine ⟨?_, by decide, by decide⟩
  rcases Nat.eq_zero_or_pos s.stop_count with h0 | h0 <;>
    simp [RTState.call, hrec, hl, h0]

/-- C4 witness: a speech window while recording with counter 2 reports
status `Silent`. -/
theorem C4_speech_while_recording_witness :
    ((⟨true, [[3]], 2, 3, 10⟩ : RTState).call [(0,1)] [4]).1.status
      = Status.Silent :=
  (C4_speech_while_recording ⟨true, [[3]], 2, 3, 10⟩ [(0,1)] [4] rfl
    (by decide)).1.1

/-- C5: buffer continuity.  Starting from any idle state, a speech window
opens a recording span with exactly that window buffered; if the
subsequent run finalizes, the returned audio's sample count equals the
sum of the sample counts of every window consumed in the span (silent
windows contribute a zero window of identical length) — no samples
dropped, none duplicated. -/
theorem C5_buffer_continuity (s0 : RTState) (sd0 : List (Nat × Nat))
    (w0 : List Int) (ws : List (List (Nat × Nat) × List Int)) (a : List Int)
    (hidle : s0.is_recording = false) (hsd0 : sd0 ≠ [])
    (hfin : (runUntilFinishedRT (s0.call sd0 w0).2 ws).1 = some a) :
    a.length = w0.length
      + ((ws.take (runUntilFinishedRT (s0.call sd0 w0).2 ws).2).map
          (fun p => p.2.length)).sum := by
  have hl : 0 < sd0.length := List.length_pos.mpr hsd0
  have hstart : (s0.call sd0 w0).2
      = { s0 with is_recording := true, speech_buffer := [w0],
                  stop_count := 0 } := by
    simp [RTState.call, hl, hidle]
  have := runUF_bufLen ws (s0.call sd0 w0).2 (by simp [hstart]) a hfin
  rw [this, hstart]
  simp [bufLen]

/-- C5 witness: a span of one speech window of 2 samples and three silent
windows of 2 samples each finalizes to 8 samples. -/
theorem C5_buffer_continuity_witness :
    ([1,2,0,0,0,0,0,0] : List Int).length
      = ([1,2] : List Int).length
        + ((([([],[3,4]),([],[5,6]),([],[7,8])] :
             List (List (Nat × Nat) × List Int)).take
            (runUntilFinishedRT ((RT_init 3 10).call [(0,1)] [1,2]).2
              [([],[3,4]),([],[5,6]),([],[7,8])]).2).map
           (fun p => p.2.length)).sum :=
  C5_buffer_continuity (RT_init 3 10) [(0,1)] [1,2]
    [([],[3,4]),([],[5,6]),([],[7,8])] [1,2,0,0,0,0,0,0]
    rfl (by decide) (by decide)

/-- C6: `resetStream` from any state yields the idle state with empty
buffer and zero counter (the single `stop_count` field plays the roles
of both the silence counter and the idle-silence counter), returns the
`Reset` event, and is idempotent. -/
theorem C6_reset_idempotent (s : RTState) :
    s.resetStream
      = ({ audio := none, status := Status.Reset },
         { s with is_recording := false, speech_buffer := [],
                  stop_count := 0 })
    ∧ (s.resetStream).2.is_recording = false
    ∧ (s.resetStream).2.speech_buffer = []
    ∧ (s.resetStream).2.stop_count = 0
    ∧ (s.resetStream).1.status = Status.Reset
    ∧ (s.resetStream).2.resetStream = s.resetStream := by
  simp [RTState.resetStream]

/-- C6 witness: resetting a concrete mid-recording state clears it and
reports `Reset`. -/
theorem C6_reset_idempotent_witness :
    ((⟨true, [[1],[2]], 2, 3, 10⟩ : RTState).resetStream).2
      = ⟨false, [], 0, 3, 10⟩ := by
  have h := C6_reset_idempotent ⟨true, [[1],[2]], 2, 3, 10⟩
  rw [h.1]

/-- C7: while recording with counter `k`, `0 < k < threshold`, a speech
window resets the counter to 0 and keeps recording without returning
finalized audio; a subsequent run of silent windows must again reach the
full threshold to finalize: the next `threshold - 1` silent windows all
report `Speech`, and the one after finalizes. -/
theorem C7_redetection_resets (s : RTState) (sd : List (Nat × Nat))
    (w : List Int) (hrec : s.is_recording = true)
    (h0 : 0 < s.stop_count) (hlt : s.stop_count < s.silence_threshold)
    (hsd : sd ≠ []) :
    (s.call sd w).1.audio = none
    ∧ (s.call sd w).2
        = { s with speech_buffer := s.speech_buffer ++ [w], stop_count := 0 }
    ∧ ((runRT (s.call sd w).2
          (List.replicate (s.silence_threshold - 1) ([], w))).1.map
            RTResult.status
        = List.replicate (s.silence_threshold - 1) Status.Speech)
    ∧ (((runRT (s.call sd w).2
          (List.replicate (s.silence_threshold - 1) ([], w))).2.call
            [] w).1.status = Status.Finished) := by
  have hl : 0 < sd.length := List.length_pos.mpr hsd
  have hcall : s.call sd w
      = ({ audio := none, status := Status.Silent },
         { s with speech_buffer := s.speech_buffer ++ [w],
                  stop_count := 0 }) := by
    simp [RTState.call, hrec, hl, h0]
  have hrun := runRT_silent w (s.silence_threshold - 1)
    { s with speech_buffer := s.speech_buffer ++ [w], stop_count := 0 }
    (by simp [hrec]) (by simp; omega)
  refine ⟨by simp [hcall], by simp [hcall], ?_, ?_⟩
  · rw [hcall]
    simp [hrun]
  · rw [hcall]
    simp only [hrun]
    rw [call_silent_rec_fin _ w (by simp [hrec]) (by simp; omega)]

/-- C7 witness: with threshold 3 and counter 1, a speech window does not
return finalized audio. -/
theorem C7_redetection_resets_witness :
    ((⟨true, [[1]], 1, 3, 10⟩ : RTState).call [(0,1)] [2]).1.audio = none :=
  (C7_redetection_resets ⟨true, [[1]], 1, 3, 10⟩ [(0,1)] [2] rfl
    (by decide) (by decide) (by decide)).1

/-- C8 counterexample: the `src/audioStream.py` aggregator does not
implement the partial-window policy.  With an empty queue and the default
target 100, `process_audio_batch` propagates the `queue.Empty` timeout
instead of returning the no-data signal. -/
theorem C8_timeout_raises_cex :
    AS_process_audio_batch 100 [] = Except.error ()
    ∧ AS_process_audio_batch 100 [] ≠ Except.ok none := by
  refine ⟨rfl, ?_⟩
  have he : AS_process_audio_batch 100 [] = Except.error () := rfl
  rw [he]
  intro h
  exact Except.noConfusion h

/-- C8 amended: the collection loop gathers exactly the first `target`
available chunks in order (no chunk duplicated or skipped).  The
`src/atot/audioStream.py` aggregator returns their order-preserving
concatenation — fewer than `target` on a timeout — and a no-data signal
when zero chunks were gathered; the `src/audioStream.py` aggregator
instead propagates the queue timeout whenever fewer than `target` chunks
are available. -/
theorem C8_partial_window (target : Nat) (q : List (List Int)) :
    (collectLoop target q).1 = q.take target
    ∧ (AT_process_audio_batch target q
        = if q.take target = [] then none else some (q.take target).flatten)
    ∧ (q.length < target → AS_process_audio_batch target q = Except.error ())
    ∧ (target ≤ q.length →
        AS_process_audio_batch target q
          = if q.take target = [] then Except.ok none
            else Except.ok (some (q.take target).flatten)) := by
  have h := collectLoop_spec target q
  refine ⟨h.1, ?_, ?_, ?_⟩
  · simp [AT_process_audio_batch, h.1]
  · intro hlt
    have ht : (collectLoop target q).2 = true := h.2.mpr hlt
    simp [AS_process_audio_batch, ht]
  · intro hle
    have ht : (collectLoop target q).2 = false := by
      rcases hb : (collectLoop target q).2 with _ | _
      · rfl
      · exact absurd (h.2.mp hb) (by omega)
    simp [AS_process_audio_batch, ht, h.1]

/-- C8 amended witness: one available chunk with target 2 makes the
`src/audioStream.py` aggregator raise. -/
theorem C8_partial_window_witness :
    AS_process_audio_batch 2 [[1]] = Except.error () :=
  (C8_partial_window 2 [[1]]).2.2.1 (by decide)

/-- C9: in the `src/atot/audioStream.py` segmenter, taking the finalize
branch from any state whose `speech_id` attribute is missing raises
`AttributeError` (`speech_id += 1` reads the never-initialized
attribute); since `__init__` does not set it and no successful step ever
creates it, the branch returning finished audio is unreachable from the
initial state without an exception. -/
theorem C9_speech_id_attribute_error (s : ATState) (w : List Int)
    (hid : s.speech_id = none) (hrec : s.is_recording = true)
    (hth : s.silence_threshold ≤ s.stop_count + 1) :
    s.call [] w = Except.error ()
    ∧ (∀ (st : Nat) (ws : List (List (Nat × Nat) × List Int)) (a : List Int),
        runFirstAudioAT (AT_init st) ws ≠ Except.ok (some a)) := by
  constructor
  · simp [ATState.call, hrec, hth, hid]
  · intro st ws a
    exact runFirstAudioAT_none ws (AT_init st) rfl a

/-- C9 witness: finalizing with threshold 3 at counter 2 raises, and the
scenario speech, silent, silent, silent from the fresh segmenter never
returns the finalized four-window audio. -/
theorem C9_speech_id_attribute_error_witness :
    (ATState.call ⟨true, [[1]], 2, 3, none⟩ [] [0] = Except.error ())
    ∧ runFirstAudioAT (AT_init 3)
        [([(0,1)],[1]), ([],[1]), ([],[1]), ([],[1])]
        ≠ Except.ok (some [1,0,0,0]) := by
  have h := C9_speech_id_attribute_error ⟨true, [[1]], 2, 3, none⟩ [0]
    rfl rfl (by decide)
  exact ⟨h.1, h.2 3 _ [1,0,0,0]⟩

/-- C10: in both variants without an exit threshold, a silent window
while idle returns `None` and leaves `is_recording`, `speech_buffer` and
`stop_count` unchanged (in `src/audioStream.py` only the write-only
`current_status` scratch attribute is refreshed; in
`src/atot/audioStream.py` the state is entirely unchanged), so no amount
of idle silence ever terminates the session. -/
theorem C10_idle_silence_noop (s : ASState) (t : ATState) (w v : List Int)
    (hs : s.is_recording = false) (ht : t.is_recording = false) :
    ((s.call [] w).1 = none
      ∧ (s.call [] w).2 = { s with current_status := some false }
      ∧ (s.call [] w).2.is_recording = s.is_recording
      ∧ (s.call [] w).2.speech_buffer = s.speech_buffer
      ∧ (s.call [] w).2.stop_count = s.stop_count)
    ∧ t.call [] v = Except.ok (none, t)
    ∧ (∀ n : Nat,
        runFirstAudioAS s (List.replicate n ([], w)) = none) := by
  refine ⟨?_, AT_call_idle_silent t v ht,
    fun n => runFirstAudioAS_idle_silent w n s hs⟩
  rw [AS_call_idle_silent s w hs]
  simp

/-- C10 witness: a silent window on both fresh idle segmenters returns
`None` and changes nothing. -/
theorem C10_idle_silence_noop_witness :
    ((AS_init 3).call [] [1,2]).1 = none
    ∧ ATState.call (AT_init 3) [] [1,2] = Except.ok (none, AT_init 3) := by
  have h := C10_idle_silence_noop (AS_init 3) (AT_init 3) [1,2] [1,2] rfl rfl
  exact ⟨h.1.1, h.2.1⟩
